import Mathlib

/-!
A shallow embedding of `bridges/relays/bin-substrate/src/cli/relay_messages.rs`
(the `relay-messages` CLI command of the substrate bridge relayer) together
with theorems about its dispatch, setup sequencing, error propagation and
parameter-bundle assembly.

Errors are modelled by the value of type `E` the failing collaborator
returns, together with a `display : E → String` function standing for the
Rust `Display` implementation (the human-readable message text used by
`anyhow::format_err!("{}", e)`).
-/

namespace RelayMessagesCli

/-- CLI relayer operating mode (`enum RelayerMode` in `relay_messages.rs`). -/
inductive RelayerMode where
  | Altruistic
  | Rational
deriving DecidableEq, Repr

/-- The external loop's posture enumeration
(`messages_relay::message_lane_loop::RelayerMode`), a collaborator type with
the same two variants. -/
inductive LoopRelayerMode where
  | Altruistic
  | Rational
deriving DecidableEq, Repr

/-- The conversion `impl From<RelayerMode>` for the loop's `RelayerMode`
(lines 45–52 of `relay_messages.rs`): the match arm by arm. -/
def RelayerMode.intoLoop : RelayerMode → LoopRelayerMode
  | RelayerMode.Altruistic => LoopRelayerMode.Altruistic
  | RelayerMode.Rational => LoopRelayerMode.Rational

/-- Modelled from the spec: the bridge-pair selector enumeration
`FullBridge` (declared in `crate::cli::bridge`, outside the provided
sources). The spec and the exhaustive match in `RelayMessages::run` fix its
four values. -/
inductive FullBridge where
  | MillauToRialto
  | RialtoToMillau
  | MillauToRialtoParachain
  | RialtoParachainToMillau
deriving DecidableEq, Repr

/-- The four bridge-pair implementations carrying a `MessagesRelayer` impl
(lines 120–123 of `relay_messages.rs`). -/
inductive BridgeImpl where
  | MillauToRialtoCliBridge
  | RialtoToMillauCliBridge
  | MillauToRialtoParachainCliBridge
  | RialtoParachainToMillauCliBridge
deriving DecidableEq, Repr

/-- Dispatch of `RelayMessages::run` (lines 125–138): the match from the bridge-pair
selector to the implementation whose `relay_messages` is invoked.  The match
in the source has four arms, one per selector, and no wildcard arm. -/
def runDispatch : FullBridge → BridgeImpl
  | FullBridge.MillauToRialto => BridgeImpl.MillauToRialtoCliBridge
  | FullBridge.RialtoToMillau => BridgeImpl.RialtoToMillauCliBridge
  | FullBridge.MillauToRialtoParachain => BridgeImpl.MillauToRialtoParachainCliBridge
  | FullBridge.RialtoParachainToMillau => BridgeImpl.RialtoParachainToMillauCliBridge

/-- The setup/handoff events of one `relay_messages` run, in the order the
source performs them. -/
inductive Event where
  | ConnectSource
  | KeyPairSource
  | MortalitySource
  | ConnectTarget
  | KeyPairTarget
  | MortalityTarget
  | RunLoop
deriving DecidableEq, Repr

/-- The order in which `MessagesRelayer::relay_messages` performs its steps
(lines 88–97 of the source). -/
def setupOrder : List Event :=
  [Event.ConnectSource, Event.KeyPairSource, Event.MortalitySource,
   Event.ConnectTarget, Event.KeyPairTarget, Event.MortalityTarget,
   Event.RunLoop]

/-- The record `substrate_relay_helper::TransactionParams` as assembled at
lines 99–102 and 104–107: a signer plus a transaction mortality window. -/
structure TransactionParams (KeyPair : Type) where
  signer : KeyPair
  mortality : Option Nat
deriving DecidableEq, Repr

/-- Modelled from the spec: `MixStrategy` — the mixed
relay strategy is constructed once per run from the loop posture and
nothing else. -/
structure MixStrategy where
  relayer_mode : LoopRelayerMode
deriving DecidableEq, Repr

/-- Constructor wrapper mirroring `MixStrategy::new`. -/
def MixStrategy.new (mode : LoopRelayerMode) : MixStrategy :=
  ⟨mode⟩

/-- The record `substrate_relay_helper::messages_lane::MessagesRelayParams`
as assembled at lines 97–114 of the source: the full relay-loop parameter
bundle.  `Client`, `KeyPair`, `M` (metrics configuration), `H` (an on-demand
headers-relay component) and `S` (standalone metrics) are the collaborator
types. -/
structure MessagesRelayParams (Client KeyPair M H S : Type) where
  source_client : Client
  source_transaction_params : TransactionParams KeyPair
  target_client : Client
  target_transaction_params : TransactionParams KeyPair
  source_to_target_headers_relay : Option H
  target_to_source_headers_relay : Option H
  lane_id : List Nat
  metrics_params : M
  standalone_metrics : Option S
  relay_strategy : MixStrategy
deriving DecidableEq, Repr

/-- The results the external collaborators (client connection, key
derivation, mortality computation, the relay-loop engine) produce for one
run, plus the `Display` rendering of their errors.  The source calls each
resolver once on the corresponding sub-record of the command, so for a
fixed command the collaborators are captured by their results. -/
structure Env (E Client KeyPair M H S : Type) where
  display : E → String
  source_client : Except E Client
  source_keypair : Except E KeyPair
  source_mortality : Except E (Option Nat)
  target_client : Except E Client
  target_keypair : Except E KeyPair
  target_mortality : Except E (Option Nat)
  run : MessagesRelayParams Client KeyPair M H S → Except E Unit

/-- The fields of the parsed `RelayMessages` command that
`relay_messages` reads directly: the lane id bytes (after `HexLaneId`
conversion), the relayer mode, and the metrics configuration obtained from
the prometheus params (`data.prometheus_params.into()`, a pure non-failing
conversion).  The connection and signing sub-records are consumed by the
collaborators captured in `Env`. -/
structure RelayMessagesData (M : Type) where
  lane : List Nat
  relayer_mode : RelayerMode
  metrics_params : M
deriving DecidableEq, Repr

/-- The observable outcome of one `relay_messages` run: the returned
result (errors rendered through `display`, as `anyhow` does), the ordered
trace of collaborator invocations, and the parameter bundle handed to the
relay-loop engine when it was invoked. -/
structure RunOutcome (Client KeyPair M H S : Type) where
  result : Except String Unit
  trace : List Event
  bundle : Option (MessagesRelayParams Client KeyPair M H S)

/-- The body of `MessagesRelayer::relay_messages` (lines 87–117 of the
source), instrumented with the trace of collaborator calls.  Each `?` in the source
becomes a match whose error branch stops the run with the displayed error;
the success path assembles `MessagesRelayParams` exactly as lines 97–114 do
and hands it to the engine once, mapping an engine error `e` through
`anyhow::format_err!("{}", e)`, i.e. to its display text. -/
def relay_messages {E Client KeyPair M H S : Type}
    (env : Env E Client KeyPair M H S) (data : RelayMessagesData M) :
    RunOutcome Client KeyPair M H S :=
  match env.source_client with
  | Except.error e => ⟨Except.error (env.display e), [Event.ConnectSource], none⟩
  | Except.ok source_client =>
  match env.source_keypair with
  | Except.error e =>
      ⟨Except.error (env.display e), [Event.ConnectSource, Event.KeyPairSource], none⟩
  | Except.ok source_sign =>
  match env.source_mortality with
  | Except.error e =>
      ⟨Except.error (env.display e),
       [Event.ConnectSource, Event.KeyPairSource, Event.MortalitySource], none⟩
  | Except.ok source_transactions_mortality =>
  match env.target_client with
  | Except.error e =>
      ⟨Except.error (env.display e),
       [Event.ConnectSource, Event.KeyPairSource, Event.MortalitySource,
        Event.ConnectTarget], none⟩
  | Except.ok target_client =>
  match env.target_keypair with
  | Except.error e =>
      ⟨Except.error (env.display e),
       [Event.ConnectSource, Event.KeyPairSource, Event.MortalitySource,
        Event.ConnectTarget, Event.KeyPairTarget], none⟩
  | Except.ok target_sign =>
  match env.target_mortality with
  | Except.error e =>
      ⟨Except.error (env.display e),
       [Event.ConnectSource, Event.KeyPairSource, Event.MortalitySource,
        Event.ConnectTarget, Event.KeyPairTarget, Event.MortalityTarget], none⟩
  | Except.ok target_transactions_mortality =>
    let relayer_mode := data.relayer_mode.intoLoop
    let relay_strategy := MixStrategy.new relayer_mode
    let params : MessagesRelayParams Client KeyPair M H S :=
      { source_client := source_client
        source_transaction_params :=
          { signer := source_sign, mortality := source_transactions_mortality }
        target_client := target_client
        target_transaction_params :=
          { signer := target_sign, mortality := target_transactions_mortality }
        source_to_target_headers_relay := none
        target_to_source_headers_relay := none
        lane_id := data.lane
        metrics_params := data.metrics_params
        standalone_metrics := none
        relay_strategy := relay_strategy }
    ⟨(match env.run params with
      | Except.ok _ => Except.ok ()
      | Except.error e => Except.error (env.display e)),
     setupOrder, some params⟩

/-- Specification helper: the error of the first failing setup step, in the
order the source performs the steps; `none` when all six setup steps
succeed. -/
def Env.firstSetupErr {E Client KeyPair M H S : Type}
    (env : Env E Client KeyPair M H S) : Option E :=
  match env.source_client with
  | Except.error e => some e
  | Except.ok _ =>
  match env.source_keypair with
  | Except.error e => some e
  | Except.ok _ =>
  match env.source_mortality with
  | Except.error e => some e
  | Except.ok _ =>
  match env.target_client with
  | Except.error e => some e
  | Except.ok _ =>
  match env.target_keypair with
  | Except.error e => some e
  | Except.ok _ =>
  match env.target_mortality with
  | Except.error e => some e
  | Except.ok _ => none

/-- Decidable equality for `Except`, used to evaluate run results on
concrete inputs. -/
instance {ε α : Type} [DecidableEq ε] [DecidableEq α] : DecidableEq (Except ε α) :=
  fun a b =>
  match a, b with
  | Except.ok x, Except.ok y =>
    match decEq x y with
    | isTrue h => isTrue (congrArg Except.ok h)
    | isFalse h => isFalse (fun hc => h (Except.ok.inj hc))
  | Except.error x, Except.error y =>
    match decEq x y with
    | isTrue h => isTrue (congrArg Except.error h)
    | isFalse h => isFalse (fun hc => h (Except.error.inj hc))
  | Except.ok _, Except.error _ => isFalse (fun hc => Except.noConfusion hc)
  | Except.error _, Except.ok _ => isFalse (fun hc => Except.noConfusion hc)

/-- Lower-casing of a string, character by character. -/
def lowerString (s : String) : String :=
  ⟨s.data.map Char.toLower⟩

/-- Modelled from the spec: the parser the `EnumString` derive with
`serialize_all = "kebab_case"` plus structopt's `case_insensitive = true`
(line 63) generate for `RelayerMode`.  It accepts the two kebab-case tokens
case-insensitively and rejects every other token with an
"unrecognized value" error. -/
def RelayerMode.fromStr (s : String) : Except String RelayerMode :=
  if lowerString s = "altruistic" then Except.ok RelayerMode.Altruistic
  else if lowerString s = "rational" then Except.ok RelayerMode.Rational
  else Except.error "unrecognized value"

/-- Modelled from the spec: the kebab-case textual form of each
`RelayerMode` variant (`serialize_all = "kebab_case"` on the
`EnumVariantNames` derive). -/
def RelayerMode.serialize : RelayerMode → String
  | RelayerMode.Altruistic => "altruistic"
  | RelayerMode.Rational => "rational"

/-- The value carried by a `--flag=value` command-line argument, when the
argument starts with the given `--flag=` text. -/
def argValue (flag a : String) : Option String :=
  if flag.data.isPrefixOf a.data then some ⟨a.data.drop flag.data.length⟩ else none

/-- Modelled from the spec: how structopt resolves the `relayer_mode` field
(lines 63–64): the value of the first `--relayer-mode=<value>` argument when
one is supplied, the declared default token `"rational"` when the flag is
omitted, in both cases fed through the `RelayerMode` parser. -/
def resolveRelayerMode (args : List String) : Except String RelayerMode :=
  match args.filterMap (argValue "--relayer-mode=") with
  | [] => RelayerMode.fromStr "rational"
  | v :: _ => RelayerMode.fromStr v

/-- Modelled from the spec: the numeric value of one hex digit. -/
def hexVal (c : Char) : Option Nat :=
  if '0' ≤ c ∧ c ≤ '9' then some (c.toNat - '0'.toNat)
  else if 'a' ≤ c ∧ c ≤ 'f' then some (c.toNat - 'a'.toNat + 10)
  else if 'A' ≤ c ∧ c ≤ 'F' then some (c.toNat - 'A'.toNat + 10)
  else none

/-- Modelled from the spec: hex decoding of a character list, two hex
digits per byte. -/
def decodeHexChars : List Char → Option (List Nat)
  | [] => some []
  | [_] => none
  | a :: b :: rest => do
      let hi ← hexVal a
      let lo ← hexVal b
      let tail ← decodeHexChars rest
      pure ((16 * hi + lo) :: tail)

/-- Modelled from the spec: the `HexLaneId` parser — a hex-encoded lane
identifier of fixed width four bytes. -/
def parseHexLaneId (s : String) : Option (List Nat) :=
  match decodeHexChars s.toList with
  | some bytes => if bytes.length = 4 then some bytes else none
  | none => none

/-- Modelled from the spec: how structopt resolves the `lane` field
(lines 60–62): the supplied `--lane` value when present, otherwise the
declared default token `"00000000"`, fed through the `HexLaneId` parser. -/
def resolveLane (arg : Option String) : Option (List Nat) :=
  parseHexLaneId (arg.getD "00000000")

/-- C1: `RelayMessages::run` dispatches every value of the four-valued
bridge-pair selector enumeration to exactly one bridge-pair implementation's
`relay_messages`: the four match arms are as listed in the source, the
selector enumeration has no further value (so the match is exhaustive with
no fallback arm), and every one of the four implementations is reached. -/
theorem run_dispatch_total_exhaustive :
    runDispatch FullBridge.MillauToRialto = BridgeImpl.MillauToRialtoCliBridge ∧
    runDispatch FullBridge.RialtoToMillau = BridgeImpl.RialtoToMillauCliBridge ∧
    runDispatch FullBridge.MillauToRialtoParachain =
      BridgeImpl.MillauToRialtoParachainCliBridge ∧
    runDispatch FullBridge.RialtoParachainToMillau =
      BridgeImpl.RialtoParachainToMillauCliBridge ∧
    (∀ b : FullBridge,
      b = FullBridge.MillauToRialto ∨ b = FullBridge.RialtoToMillau ∨
      b = FullBridge.MillauToRialtoParachain ∨ b = FullBridge.RialtoParachainToMillau) ∧
    (∀ i : BridgeImpl, ∃ b : FullBridge, runDispatch b = i) := by
  refine ⟨rfl, rfl, rfl, rfl, ?_, ?_⟩
  · intro b
    cases b <;> simp
  · intro i
    cases i
    · exact ⟨FullBridge.MillauToRialto, rfl⟩
    · exact ⟨FullBridge.RialtoToMillau, rfl⟩
    · exact ⟨FullBridge.MillauToRialtoParachain, rfl⟩
    · exact ⟨FullBridge.RialtoParachainToMillau, rfl⟩

/-- C7: the conversion from the CLI `RelayerMode` into the external loop's
posture enumeration is the exact 1:1 mapping Altruistic ↦ Altruistic and
Rational ↦ Rational; the CLI enumeration has no further value (so no other
mapping exists) and every loop posture is reached. -/
theorem relayer_mode_conversion_exact :
    RelayerMode.intoLoop RelayerMode.Altruistic = LoopRelayerMode.Altruistic ∧
    RelayerMode.intoLoop RelayerMode.Rational = LoopRelayerMode.Rational ∧
    (∀ m : RelayerMode, m = RelayerMode.Altruistic ∨ m = RelayerMode.Rational) ∧
    (∀ l : LoopRelayerMode, ∃ m : RelayerMode, RelayerMode.intoLoop m = l) := by
  refine ⟨rfl, rfl, ?_, ?_⟩
  · intro m
    cases m <;> simp
  · intro l
    cases l
    · exact ⟨RelayerMode.Altruistic, rfl⟩
    · exact ⟨RelayerMode.Rational, rfl⟩

/-- C5: parsing a relayer-mode token is case-insensitive (it depends only
on the lower-cased token), serializing a parsed mode and parsing it again
yields the same mode, and any token that is not a case variant of
"altruistic" or "rational" fails with an "unrecognized value" error. -/
theorem relayer_mode_parse_case_insensitive_roundtrip :
    (∀ s t : String, lowerString s = lowerString t →
      RelayerMode.fromStr s = RelayerMode.fromStr t) ∧
    (∀ m : RelayerMode,
      RelayerMode.fromStr (RelayerMode.serialize m) = Except.ok m) ∧
    (∀ (s : String) (m : RelayerMode), RelayerMode.fromStr s = Except.ok m →
      RelayerMode.fromStr (RelayerMode.serialize m) = Except.ok m) ∧
    (∀ s : String, lowerString s ≠ "altruistic" → lowerString s ≠ "rational" →
      RelayerMode.fromStr s = Except.error "unrecognized value") := by
  have hser : ∀ m : RelayerMode,
      RelayerMode.fromStr (RelayerMode.serialize m) = Except.ok m := by
    intro m
    cases m <;> rfl
  refine ⟨?_, hser, fun s m _ => hser m, ?_⟩
  · intro s t h
    simp only [RelayerMode.fromStr, h]
  · intro s h1 h2
    simp [RelayerMode.fromStr, h1, h2]

/-- C6: when no `--relayer-mode=` argument is supplied, the resolved
relayer mode is `Rational`; appending `--relayer-mode=altruistic` to such a
command line resolves to `Altruistic`. -/
theorem relayer_mode_default_and_override (args : List String)
    (h : ∀ a ∈ args, argValue "--relayer-mode=" a = none) :
    resolveRelayerMode args = Except.ok RelayerMode.Rational ∧
    resolveRelayerMode (args ++ ["--relayer-mode=altruistic"]) =
      Except.ok RelayerMode.Altruistic := by
  have hnil : args.filterMap (argValue "--relayer-mode=") = [] :=
    List.filterMap_eq_nil_iff.mpr h
  constructor
  · simp only [resolveRelayerMode, hnil]
    decide
  · simp only [resolveRelayerMode, List.filterMap_append, hnil, List.nil_append]
    decide

/-- C8: when the `--lane` flag is omitted, the resolved lane identifier is
the all-zero lane id of the fixed four-byte width. -/
theorem lane_defaults_to_all_zero :
    resolveLane none = some [0, 0, 0, 0] := by
  decide

/-- C2: every run performs its steps as a prefix of the fixed sequential
order (source connect, source key pair, source mortality, target connect,
target key pair, target mortality, engine handoff) — in particular all
source-side setup precedes all target-side setup — the engine is invoked at
most once in every run, and exactly once when the whole setup succeeds. -/
theorem relay_messages_sequential_order {E Client KeyPair M H S : Type}
    (env : Env E Client KeyPair M H S) (data : RelayMessagesData M) :
    (relay_messages env data).trace =
      setupOrder.take (relay_messages env data).trace.length ∧
    (relay_messages env data).trace.count Event.RunLoop ≤ 1 ∧
    (env.firstSetupErr = none →
      (relay_messages env data).trace = setupOrder ∧
      (relay_messages env data).trace.count Event.RunLoop = 1) := by
  rcases h1 : env.source_client with e1 | c1 <;>
    rcases h2 : env.source_keypair with e2 | c2 <;>
    rcases h3 : env.source_mortality with e3 | c3 <;>
    rcases h4 : env.target_client with e4 | c4 <;>
    rcases h5 : env.target_keypair with e5 | c5 <;>
    rcases h6 : env.target_mortality with e6 | c6 <;>
    simp [relay_messages, Env.firstSetupErr, h1, h2, h3, h4, h5, h6, setupOrder]

/-- C3: when a setup step fails, the run returns the display text of the
first failing step's error, the engine is never invoked and no parameter
bundle is assembled; when all setup steps succeed, the engine is invoked
and a bundle exists — there is no partial-success state. -/
theorem relay_messages_aborts_on_setup_failure {E Client KeyPair M H S : Type}
    (env : Env E Client KeyPair M H S) (data : RelayMessagesData M) :
    (∀ e, env.firstSetupErr = some e →
      (relay_messages env data).result = Except.error (env.display e) ∧
      Event.RunLoop ∉ (relay_messages env data).trace ∧
      (relay_messages env data).bundle = none) ∧
    (env.firstSetupErr = none →
      Event.RunLoop ∈ (relay_messages env data).trace ∧
      (relay_messages env data).bundle ≠ none) := by
  rcases h1 : env.source_client with e1 | c1 <;>
    rcases h2 : env.source_keypair with e2 | c2 <;>
    rcases h3 : env.source_mortality with e3 | c3 <;>
    rcases h4 : env.target_client with e4 | c4 <;>
    rcases h5 : env.target_keypair with e5 | c5 <;>
    rcases h6 : env.target_mortality with e6 | c6 <;>
    simp [relay_messages, Env.firstSetupErr, h1, h2, h3, h4, h5, h6, setupOrder]

/-- C4: the engine's outcome is propagated: when the engine returns an
error on the assembled bundle, the run's result is a failure carrying the
engine error's display text unchanged; when the engine succeeds, the run
succeeds. -/
theorem relay_messages_propagates_engine_result {E Client KeyPair M H S : Type}
    (env : Env E Client KeyPair M H S) (data : RelayMessagesData M) :
    ∀ p, (relay_messages env data).bundle = some p →
      ((env.run p = Except.ok () →
        (relay_messages env data).result = Except.ok ()) ∧
       (∀ e, env.run p = Except.error e →
        (relay_messages env data).result = Except.error (env.display e))) := by
  rcases h1 : env.source_client with e1 | c1 <;>
    rcases h2 : env.source_keypair with e2 | c2 <;>
    rcases h3 : env.source_mortality with e3 | c3 <;>
    rcases h4 : env.target_client with e4 | c4 <;>
    rcases h5 : env.target_keypair with e5 | c5 <;>
    rcases h6 : env.target_mortality with e6 | c6 <;>
    simp [relay_messages, h1, h2, h3, h4, h5, h6]
  constructor
  · intro hr
    simp [hr]
  · intro e hr
    simp [hr]

/-- C9: every parameter bundle assembled by a run has both auxiliary
header-relay components absent and no standalone metrics, whatever the
command parameters were. -/
theorem relay_messages_bundle_no_headers_no_standalone_metrics
    {E Client KeyPair M H S : Type}
    (env : Env E Client KeyPair M H S) (data : RelayMessagesData M) :
    ∀ p, (relay_messages env data).bundle = some p →
      p.source_to_target_headers_relay = none ∧
      p.target_to_source_headers_relay = none ∧
      p.standalone_metrics = none := by
  rcases h1 : env.source_client with e1 | c1 <;>
    rcases h2 : env.source_keypair with e2 | c2 <;>
    rcases h3 : env.source_mortality with e3 | c3 <;>
    rcases h4 : env.target_client with e4 | c4 <;>
    rcases h5 : env.target_keypair with e5 | c5 <;>
    rcases h6 : env.target_mortality with e6 | c6 <;>
    simp [relay_messages, h1, h2, h3, h4, h5, h6]

/-- C10: two runs against the same collaborator results whose command
parameters agree on the lane and the metrics configuration (so differ at
most in the relayer mode) assemble bundles that agree on every field other
than the relay strategy. -/
theorem relayer_mode_affects_only_strategy {E Client KeyPair M H S : Type}
    (env : Env E Client KeyPair M H S) (d1 d2 : RelayMessagesData M)
    (hlane : d1.lane = d2.lane) (hmet : d1.metrics_params = d2.metrics_params) :
    ∀ p1 p2, (relay_messages env d1).bundle = some p1 →
      (relay_messages env d2).bundle = some p2 →
      p1.source_client = p2.source_client ∧
      p1.source_transaction_params = p2.source_transaction_params ∧
      p1.target_client = p2.target_client ∧
      p1.target_transaction_params = p2.target_transaction_params ∧
      p1.source_to_target_headers_relay = p2.source_to_target_headers_relay ∧
      p1.target_to_source_headers_relay = p2.target_to_source_headers_relay ∧
      p1.lane_id = p2.lane_id ∧
      p1.metrics_params = p2.metrics_params ∧
      p1.standalone_metrics = p2.standalone_metrics := by
  rcases h1 : env.source_client with e1 | c1 <;>
    rcases h2 : env.source_keypair with e2 | c2 <;>
    rcases h3 : env.source_mortality with e3 | c3 <;>
    rcases h4 : env.target_client with e4 | c4 <;>
    rcases h5 : env.target_keypair with e5 | c5 <;>
    rcases h6 : env.target_mortality with e6 | c6 <;>
    simp [relay_messages, h1, h2, h3, h4, h5, h6, hlane, hmet]

/-- A concrete collaborator environment in which every setup step succeeds
and the engine succeeds. -/
def envOk : Env String Nat Nat Nat Unit Unit :=
  { display := fun e => e
    source_client := Except.ok 1
    source_keypair := Except.ok 2
    source_mortality := Except.ok (some 5)
    target_client := Except.ok 3
    target_keypair := Except.ok 4
    target_mortality := Except.ok none
    run := fun _ => Except.ok () }

/-- A concrete environment whose source-client connection fails. -/
def envConnFail : Env String Nat Nat Nat Unit Unit :=
  { envOk with source_client := Except.error "no connection" }

/-- A concrete environment in which setup succeeds but the engine fails. -/
def envEngineFail : Env String Nat Nat Nat Unit Unit :=
  { envOk with run := fun _ => Except.error "engine failed" }

/-- A concrete parsed command using the rational relayer mode. -/
def dataRational : RelayMessagesData Nat :=
  { lane := [0, 0, 0, 0], relayer_mode := RelayerMode.Rational, metrics_params := 7 }

/-- The same parsed command with the altruistic relayer mode. -/
def dataAltruistic : RelayMessagesData Nat :=
  { dataRational with relayer_mode := RelayerMode.Altruistic }

/-- The bundle `envOk`/`envEngineFail` runs assemble for `dataRational`. -/
def bundleOk : MessagesRelayParams Nat Nat Nat Unit Unit :=
  { source_client := 1
    source_transaction_params := { signer := 2, mortality := some 5 }
    target_client := 3
    target_transaction_params := { signer := 4, mortality := none }
    source_to_target_headers_relay := none
    target_to_source_headers_relay := none
    lane_id := [0, 0, 0, 0]
    metrics_params := 7
    standalone_metrics := none
    relay_strategy := MixStrategy.new LoopRelayerMode.Rational }

/-- The bundle an `envOk` run assembles for `dataAltruistic`. -/
def bundleOkAlt : MessagesRelayParams Nat Nat Nat Unit Unit :=
  { bundleOk with relay_strategy := MixStrategy.new LoopRelayerMode.Altruistic }

/-- The scenario command line of the repository's default-mode test, minus
the subcommand-selection machinery. -/
def scenarioArgs : List String :=
  ["relay-messages", "rialto-to-millau", "--source-port=0", "--source-signer=//Alice",
   "--target-port=0", "--target-signer=//Alice", "--lane=00000000"]

/-- Witness for C2 at a concrete all-success environment. -/
theorem relay_messages_sequential_order_witness :
    (relay_messages envOk dataRational).trace = setupOrder ∧
    (relay_messages envOk dataRational).trace.count Event.RunLoop = 1 :=
  (relay_messages_sequential_order envOk dataRational).2.2 rfl

/-- Witness for C3 at a concrete environment with a failing source
connection. -/
theorem relay_messages_aborts_witness :
    (relay_messages envConnFail dataRational).result = Except.error "no connection" ∧
    Event.RunLoop ∉ (relay_messages envConnFail dataRational).trace ∧
    (relay_messages envConnFail dataRational).bundle = none :=
  (relay_messages_aborts_on_setup_failure envConnFail dataRational).1 "no connection" rfl

/-- Witness for C4 at a concrete environment with a failing engine. -/
theorem relay_messages_propagates_engine_result_witness :
    (relay_messages envEngineFail dataRational).result = Except.error "engine failed" :=
  ((relay_messages_propagates_engine_result envEngineFail dataRational) bundleOk rfl).2
    "engine failed" rfl

/-- Witness for C5 at concrete tokens. -/
theorem relayer_mode_parse_witness :
    RelayerMode.fromStr "ALTRUISTIC" = RelayerMode.fromStr "Altruistic" ∧
    RelayerMode.fromStr (RelayerMode.serialize RelayerMode.Rational) =
      Except.ok RelayerMode.Rational ∧
    RelayerMode.fromStr "bogus" = Except.error "unrecognized value" :=
  ⟨relayer_mode_parse_case_insensitive_roundtrip.1 "ALTRUISTIC" "Altruistic" (by decide),
   relayer_mode_parse_case_insensitive_roundtrip.2.2.1 "rational" RelayerMode.Rational
     (by decide),
   relayer_mode_parse_case_insensitive_roundtrip.2.2.2 "bogus" (by decide) (by decide)⟩

/-- Witness for C6 at the repository test's scenario command line. -/
theorem relayer_mode_default_witness :
    resolveRelayerMode scenarioArgs = Except.ok RelayerMode.Rational ∧
    resolveRelayerMode (scenarioArgs ++ ["--relayer-mode=altruistic"]) =
      Except.ok RelayerMode.Altruistic :=
  relayer_mode_default_and_override scenarioArgs (by decide)

/-- Witness for C9 at a concrete all-success run. -/
theorem relay_messages_bundle_witness :
    bundleOk.source_to_target_headers_relay = none ∧
    bundleOk.target_to_source_headers_relay = none ∧
    bundleOk.standalone_metrics = none :=
  relay_messages_bundle_no_headers_no_standalone_metrics envOk dataRational bundleOk rfl

/-- Witness for C10 at two concrete runs differing only in relayer mode. -/
theorem relayer_mode_affects_only_strategy_witness :
    bundleOk.source_client = bundleOkAlt.source_client ∧
    bundleOk.source_transaction_params = bundleOkAlt.source_transaction_params ∧
    bundleOk.target_client = bundleOkAlt.target_client ∧
    bundleOk.target_transaction_params = bundleOkAlt.target_transaction_params ∧
    bundleOk.source_to_target_headers_relay = bundleOkAlt.source_to_target_headers_relay ∧
    bundleOk.target_to_source_headers_relay = bundleOkAlt.target_to_source_headers_relay ∧
    bundleOk.lane_id = bundleOkAlt.lane_id ∧
    bundleOk.metrics_params = bundleOkAlt.metrics_params ∧
    bundleOk.standalone_metrics = bundleOkAlt.standalone_metrics :=
  relayer_mode_affects_only_strategy envOk dataRational dataAltruistic rfl rfl
    bundleOk bundleOkAlt rfl rfl

end RelayMessagesCli
